import Mathlib

/-!
Verification of the BloomWatch frontend logic: the bloom-status classifier
(`bloomStatus.ts`), the catalog filter and search of `EventsList.tsx`, and the
image-viewer interaction state of the `ImageView` component.  JS `Date` values
are modelled as plain `Int` millisecond timestamps since the Unix epoch (the
value of `Date.prototype.getTime`), strings as `List Char`, and the
component's `useState` cells as fields of an
explicit state record; each event handler becomes a state-transforming
function.  The internal `new Date()` calls of `bloomStatus.ts` are modelled by
passing the ambient wall-clock instant as an explicit `now` argument.
-/

namespace BloomWatch

/-- Days since 1970-01-01 of the Gregorian civil date `y-m-d` (valid for the
non-negative years used here).  JS parses a date-only string `"YYYY-MM-DD"` as
midnight UTC of that calendar day. -/
def daysFromCivil (y m d : Int) : Int :=
  let yAdj := if m ≤ 2 then y - 1 else y
  let era := (if 0 ≤ yAdj then yAdj else yAdj - 399) / 400
  let yoe := yAdj - era * 400
  let doy := (153 * ((m + 9) % 12) + 2) / 5 + d - 1
  let doe := yoe * 365 + yoe / 4 - yoe / 100 + doy
  era * 146097 + doe - 719468

/-- Millisecond timestamp of midnight UTC on the given civil date, the value
of `new Date("YYYY-MM-DD").getTime()`. -/
def dateMs (y m d : Int) : Int :=
  daysFromCivil y m d * 86400000

/-- The `peakTimeInterval: [string, string]` pair of an event, with the two
date strings already converted to their UTC-midnight timestamps. -/
structure BloomInterval where
  startMs : Int
  endMs : Int
  deriving DecidableEq, Repr

/-- `isBloomActive` from `bloomStatus.ts`: `now >= start && now <= end`.  The
internal `new Date()` is the explicit ambient argument `now`. -/
def isBloomActive (peakTimeInterval : BloomInterval) (now : Int) : Bool :=
  decide (peakTimeInterval.startMs ≤ now) && decide (now ≤ peakTimeInterval.endMs)

/-- The three values of the `status` field of `getBloomStatus`. -/
inductive BloomStatusLabel where
  | active
  | upcoming
  | past
  deriving DecidableEq, Repr

/-- Return type of `getBloomStatus`; an optional field that the returned
object literal omits is `none`. -/
structure BloomStatusResult where
  isActive : Bool
  status : BloomStatusLabel
  daysUntil : Option Int := none
  daysSince : Option Int := none
  deriving DecidableEq, Repr

/-- The divisor `1000 * 60 * 60 * 24` used by `getBloomStatus`. -/
def msPerDay : Int := 1000 * 60 * 60 * 24

/-- `Math.ceil (a / b)` for integer `a` and positive integer `b`: the exact
real quotient rounded up (for positive `b`, Lean's `/` on `Int` is floor
division, and `⌈a / b⌉ = ⌊(a + b - 1) / b⌋`). -/
def mathCeilDiv (a b : Int) : Int :=
  (a + b - 1) / b

/-- `getBloomStatus` from `bloomStatus.ts`.  The internal `new Date()` is the
explicit ambient argument `now`. -/
def getBloomStatus (peakTimeInterval : BloomInterval) (now : Int) : BloomStatusResult :=
  if peakTimeInterval.startMs ≤ now ∧ now ≤ peakTimeInterval.endMs then
    { isActive := true, status := .active }
  else if now < peakTimeInterval.startMs then
    { isActive := false, status := .upcoming,
      daysUntil := some (mathCeilDiv (peakTimeInterval.startMs - now) msPerDay) }
  else
    { isActive := false, status := .past,
      daysSince := some (mathCeilDiv (now - peakTimeInterval.endMs) msPerDay) }

/-- The interval `["2024-03-01", "2024-03-20"]` of the spec scenarios. -/
def scenario2024Interval : BloomInterval :=
  ⟨dateMs 2024 3 1, dateMs 2024 3 20⟩

/-- Claim C1: for every interval with start ≤ end and every instant `now`,
`getBloomStatus` returns exactly one of active/upcoming/past; the three cases
partition all possible `now` values with no gap or overlap, and the boundary
instants `now = start` and `now = end` are both classified active. -/
theorem C1_status_partition (s e now : Int) (h : s ≤ e) :
    ((getBloomStatus ⟨s, e⟩ now).status = .active ∨
      (getBloomStatus ⟨s, e⟩ now).status = .upcoming ∨
      (getBloomStatus ⟨s, e⟩ now).status = .past)
    ∧ ((getBloomStatus ⟨s, e⟩ now).status = .active ↔ s ≤ now ∧ now ≤ e)
    ∧ ((getBloomStatus ⟨s, e⟩ now).status = .upcoming ↔ now < s)
    ∧ ((getBloomStatus ⟨s, e⟩ now).status = .past ↔ e < now)
    ∧ (getBloomStatus ⟨s, e⟩ s).status = .active
    ∧ (getBloomStatus ⟨s, e⟩ e).status = .active := by
  unfold getBloomStatus
  split_ifs <;> simp_all <;> omega

/-- Concrete instance of `C1_status_partition`. -/
theorem C1_status_partition_witness :
    (getBloomStatus ⟨0, 2⟩ 1).status = .active :=
  (C1_status_partition 0 2 1 (by decide)).2.1.mpr (by decide)

/-- Counterexample to claim C9: for the interval
`["2024-03-01", "2024-03-20"]` and `now = "2024-02-20"` the code does not
return `daysUntil = 9` (2024 is a leap year, so there are ten days from
Feb 20 to Mar 1). -/
theorem C9_counterexample :
    (getBloomStatus scenario2024Interval (dateMs 2024 2 20)).status = .upcoming
    ∧ (getBloomStatus scenario2024Interval (dateMs 2024 2 20)).daysUntil ≠ some 9 := by
  decide

/-- Claim C9 (amended): for the interval `("2024-03-01", "2024-03-20")` and
`now = "2024-02-20"`, the classifier returns status upcoming with
`daysUntil = 10`, where `daysUntil = ceil((start − now) / 1 day)`. -/
theorem C9_amended_upcoming_scenario :
    getBloomStatus scenario2024Interval (dateMs 2024 2 20)
      = { isActive := false, status := .upcoming, daysUntil := some 10 }
    ∧ mathCeilDiv (scenario2024Interval.startMs - dateMs 2024 2 20) msPerDay = 10 := by
  decide

/-- Claim C10: evaluated at the same ambient instant, the two exported
classifier functions agree: `isBloomActive` equals the `isActive` field of
`getBloomStatus`, and is true exactly when the status is active. -/
theorem C10_isBloomActive_agrees_getBloomStatus (iv : BloomInterval) (now : Int) :
    isBloomActive iv now = (getBloomStatus iv now).isActive
    ∧ (isBloomActive iv now = true ↔ (getBloomStatus iv now).status = .active) := by
  unfold isBloomActive getBloomStatus
  split_ifs <;> simp_all

/-- Counterexample to claim C7: the TS signature of `getBloomStatus` takes
only the interval and reads `new Date()` internally, so its result changes
with the wall clock even though its (only) explicit argument is unchanged:
the same interval classifies differently at two different ambient instants.
A classifier that did not observe wall-clock time could not produce two
different results from the identical explicit input. -/
theorem C7_counterexample :
    getBloomStatus scenario2024Interval (dateMs 2024 3 10)
      ≠ getBloomStatus scenario2024Interval (dateMs 2024 5 1) := by
  decide

/-- Claim C7 (amended): the classifier reads the current instant internally
via `new Date()` rather than receiving it as a parameter; modelling that read
as the explicit ambient argument `now`, it is deterministic given
(interval, now): two evaluations with equal interval fields at equal instants
yield identical results. -/
theorem C7_amended_deterministic (a b : BloomInterval) (n1 n2 : Int)
    (hs : a.startMs = b.startMs) (he : a.endMs = b.endMs) (hn : n1 = n2) :
    getBloomStatus a n1 = getBloomStatus b n2 := by
  cases a
  cases b
  cases hs
  cases he
  cases hn
  rfl

/-- Concrete instance of `C7_amended_deterministic`. -/
theorem C7_amended_deterministic_witness :
    getBloomStatus ⟨0, 5⟩ 3 = getBloomStatus ⟨0, 5⟩ 3 :=
  C7_amended_deterministic ⟨0, 5⟩ ⟨0, 5⟩ 3 3 rfl rfl rfl

/-- One entry of `satelliteImages`: `{year: number, image: string}`. -/
structure SatelliteImageData where
  year : Int
  image : List Char
  deriving DecidableEq, Repr

/-- One entry of `graphImages`: `{title: string, image: string}`. -/
structure GraphImageData where
  title : List Char
  image : List Char
  deriving DecidableEq, Repr

/-- The fields of `SuperbloomEventData` that the catalog filter and the image
viewer read; the three image collections are optional in the TS interface
(`none` models `undefined`). -/
structure SuperbloomEventData where
  id : Int
  title : List Char
  location : List Char
  tags : List (List Char)
  peakTimeInterval : BloomInterval
  images : Option (List (List Char)) := none
  satelliteImages : Option (List SatelliteImageData) := none
  graphImages : Option (List GraphImageData) := none
  deriving DecidableEq, Repr

/-- The four values of the `filter` state of `EventsList`. -/
inductive FilterKey where
  | all
  | active
  | soon
  | inactive
  deriving DecidableEq, Repr

/-- JS truthiness of `bloomStatus.daysUntil`: a missing field (`undefined`)
and the number `0` are falsy. -/
def jsTruthy : Option Int → Bool
  | none => false
  | some d => d != 0

/-- The `matchesFilter` expression of `EventsList.tsx`. -/
def matchesFilter (filter : FilterKey) (bloomStatus : BloomStatusResult) : Bool :=
  filter == .all
    || (filter == .active && bloomStatus.status == .active)
    || (filter == .soon && bloomStatus.status == .upcoming
        && jsTruthy bloomStatus.daysUntil
        && decide (bloomStatus.daysUntil.getD 0 ≤ 50))
    || (filter == .inactive
        && (bloomStatus.status == .past
          || (bloomStatus.status == .upcoming
            && jsTruthy bloomStatus.daysUntil
            && decide (50 < bloomStatus.daysUntil.getD 0))))

/-- Does `pat` occur at the very beginning of the second list? -/
def strStarts : List Char → List Char → Bool
  | [], _ => true
  | _ :: _, [] => false
  | p :: ps, t :: ts => p == t && strStarts ps ts

/-- `String.prototype.includes`: `strIncludes text pat` is true iff `pat`
occurs as a contiguous substring of `text`. -/
def strIncludes : List Char → List Char → Bool
  | [], pat => pat.isEmpty
  | t :: ts, pat => strStarts pat (t :: ts) || strIncludes ts pat

/-- `String.prototype.toLowerCase`, modelled on the basic latin range. -/
def toLowerStr (s : List Char) : List Char :=
  s.map Char.toLower

/-- The `matchesSearch` expression of `EventsList.tsx`. -/
def matchesSearch (event : SuperbloomEventData) (searchTerm : List Char) : Bool :=
  searchTerm == []
    || strIncludes (toLowerStr event.title) (toLowerStr searchTerm)
    || strIncludes (toLowerStr event.location) (toLowerStr searchTerm)
    || event.tags.any fun tag => strIncludes (toLowerStr tag) (toLowerStr searchTerm)

/-- `filteredEvents` from `EventsList.tsx`: one render pass over the loaded
events; every `getBloomStatus` call of the pass reads the same ambient
instant `now`. -/
def filteredEvents (events : List SuperbloomEventData) (filter : FilterKey)
    (searchTerm : List Char) (now : Int) : List SuperbloomEventData :=
  events.filter fun event =>
    matchesFilter filter (getBloomStatus event.peakTimeInterval now)
      && matchesSearch event searchTerm

lemma msPerDay_eq : msPerDay = 86400000 := by
  norm_num [msPerDay]

/-- Claim C4: for every interval and instant, the status filter selects under
`"soon"` exactly the upcoming events with `daysUntil ≤ 50`, and under
`"inactive"` exactly the past events together with the upcoming ones with
`daysUntil > 50`; the threshold `50` is the fixed constant of
`matchesFilter`. -/
theorem C4_status_filter_soon_inactive (iv : BloomInterval) (now : Int) :
    (matchesFilter .soon (getBloomStatus iv now) = true
      ↔ (getBloomStatus iv now).status = .upcoming
        ∧ ∃ d : Int, (getBloomStatus iv now).daysUntil = some d ∧ d ≤ 50)
    ∧ (matchesFilter .inactive (getBloomStatus iv now) = true
      ↔ (getBloomStatus iv now).status = .past
        ∨ ((getBloomStatus iv now).status = .upcoming
          ∧ ∃ d : Int, (getBloomStatus iv now).daysUntil = some d ∧ 50 < d)) := by
  unfold getBloomStatus
  split_ifs with h1 h2
  · simp [matchesFilter]
  · have hd : 1 ≤ mathCeilDiv (iv.startMs - now) msPerDay := by
      unfold mathCeilDiv
      rw [msPerDay_eq]
      omega
    simp [matchesFilter, jsTruthy]
    omega
  · simp [matchesFilter, jsTruthy]

/-- Terms with the same lower-casing match the same events: the search only
consults the lower-cased term, and lower-casing preserves emptiness. -/
lemma matchesSearch_toLower_congr (e : SuperbloomEventData) (t1 t2 : List Char)
    (h : toLowerStr t1 = toLowerStr t2) :
    matchesSearch e t1 = matchesSearch e t2 := by
  have hlen : t1.length = t2.length := by
    have h1 : (toLowerStr t1).length = (toLowerStr t2).length := by rw [h]
    simpa [toLowerStr] using h1
  have hemp : (t1 == ([] : List Char)) = (t2 == ([] : List Char)) := by
    cases t1 <;> cases t2 <;> simp_all
  unfold matchesSearch
  rw [h, hemp]

/-- Claim C8: the search match is a case-insensitive substring test against
the title, the location, or any tag (any one match suffices); the empty term
matches every event; and the terms `"ANTELOPE"` and `"antelope"` produce
identical filtered results on every catalog. -/
theorem C8_search_case_insensitive :
    (∀ e : SuperbloomEventData, matchesSearch e [] = true)
    ∧ (∀ (e : SuperbloomEventData) (t : List Char),
        matchesSearch e t = true
          ↔ (t = []
            ∨ strIncludes (toLowerStr e.title) (toLowerStr t) = true
            ∨ strIncludes (toLowerStr e.location) (toLowerStr t) = true
            ∨ ∃ tag ∈ e.tags, strIncludes (toLowerStr tag) (toLowerStr t) = true))
    ∧ (∀ (events : List SuperbloomEventData) (filter : FilterKey) (now : Int),
        filteredEvents events filter ("ANTELOPE".toList) now
          = filteredEvents events filter ("antelope".toList) now) := by
  refine ⟨?_, ?_, ?_⟩
  · intro e
    simp [matchesSearch]
  · intro e t
    simp [matchesSearch]
    tauto
  · intro events filter now
    unfold filteredEvents
    apply List.filter_congr
    intro e he
    rw [matchesSearch_toLower_congr e ("ANTELOPE".toList) ("antelope".toList) (by decide)]

/-- An event whose `peakTimeInterval` is reversed: it starts on
`"2024-03-20"` and ends on `"2024-03-01"`. -/
def reversedIntervalEvent : SuperbloomEventData :=
  { id := 1, title := "Reversed".toList, location := "Nowhere".toList,
    tags := [], peakTimeInterval := ⟨dateMs 2024 3 20, dateMs 2024 3 1⟩ }

/-- Counterexample to claim C3: on an interval with start > end the
classifier signals nothing — it returns the ordinary status upcoming — and
the catalog store does not exclude the record from status-based filters:
under the `"soon"` filter the reversed-interval event is selected. -/
theorem C3_counterexample :
    (getBloomStatus reversedIntervalEvent.peakTimeInterval (dateMs 2024 3 10)).status
        = .upcoming
    ∧ filteredEvents [reversedIntervalEvent] .soon [] (dateMs 2024 3 10)
        = [reversedIntervalEvent] := by
  decide

/-- Claim C3 (amended): for every interval with start > end the classifier
does not crash and does not swap the pair, but it signals no error condition
either: it returns a total, ordinary classification — never active, upcoming
whenever now < start, past whenever now ≥ start — and the catalog store
filters such a record by that classification like any other record. -/
theorem C3_amended_reversed_interval_total (s e now : Int) (h : e < s) :
    (getBloomStatus ⟨s, e⟩ now).status ≠ .active
    ∧ (now < s → (getBloomStatus ⟨s, e⟩ now).status = .upcoming)
    ∧ (s ≤ now → (getBloomStatus ⟨s, e⟩ now).status = .past) := by
  unfold getBloomStatus
  split_ifs <;> simp_all <;> omega

/-- Concrete instance of `C3_amended_reversed_interval_total`. -/
theorem C3_amended_reversed_interval_total_witness :
    (getBloomStatus ⟨1, 0⟩ 2).status = .past :=
  (C3_amended_reversed_interval_total 1 0 2 (by decide)).2.2 (by decide)

/-- The `ViewMode` union of `ImageView`. -/
inductive ViewMode where
  | satellite
  | gallery
  | graph
  deriving DecidableEq, Repr

/-- The `useState` cells of the `ImageView` component. -/
structure ImageViewState where
  viewMode : ViewMode
  currentImageIndex : Int
  currentSatelliteIndex : Int
  currentGraphIndex : Int
  isZoomed : Bool
  imageLoaded : Bool
  deriving DecidableEq, Repr

/-- `selectedEvent?.images?.length`, with 0 for a missing event or list. -/
def imagesLen (selectedEvent : Option SuperbloomEventData) : Nat :=
  match selectedEvent with
  | none => 0
  | some e => (e.images.getD []).length

/-- `selectedEvent?.satelliteImages?.length`, with 0 when missing. -/
def satelliteImagesLen (selectedEvent : Option SuperbloomEventData) : Nat :=
  match selectedEvent with
  | none => 0
  | some e => (e.satelliteImages.getD []).length

/-- `selectedEvent?.graphImages?.length`, with 0 when missing. -/
def graphImagesLen (selectedEvent : Option SuperbloomEventData) : Nat :=
  match selectedEvent with
  | none => 0
  | some e => (e.graphImages.getD []).length

/-- Length of the collection of the given mode (`currentData.length`). -/
def activeLen (selectedEvent : Option SuperbloomEventData) (m : ViewMode) : Nat :=
  match m with
  | .gallery => imagesLen selectedEvent
  | .satellite => satelliteImagesLen selectedEvent
  | .graph => graphImagesLen selectedEvent

/-- The current index of the active mode (`currentIndex`). -/
def activeIndex (s : ImageViewState) : Int :=
  match s.viewMode with
  | .gallery => s.currentImageIndex
  | .satellite => s.currentSatelliteIndex
  | .graph => s.currentGraphIndex

/-- The `goToImage` handler of `ImageView`: sets the active mode's index to
the given value — with no bounds check — and resets the zoom and load
flags. -/
def goToImage (index : Int) (s : ImageViewState) : ImageViewState :=
  let s1 :=
    match s.viewMode with
    | .gallery => { s with currentImageIndex := index }
    | .satellite => { s with currentSatelliteIndex := index }
    | .graph => { s with currentGraphIndex := index }
  { s1 with isZoomed := false, imageLoaded := false }

/-- The `goToPrevious` handler of `ImageView`. -/
def goToPrevious (selectedEvent : Option SuperbloomEventData) (s : ImageViewState) :
    ImageViewState :=
  match s.viewMode with
  | .gallery =>
    if imagesLen selectedEvent = 0 then s
    else
      { s with
        currentImageIndex :=
          if s.currentImageIndex = 0 then (imagesLen selectedEvent : Int) - 1
          else s.currentImageIndex - 1,
        isZoomed := false, imageLoaded := false }
  | .satellite =>
    if satelliteImagesLen selectedEvent = 0 then s
    else
      { s with
        currentSatelliteIndex :=
          if s.currentSatelliteIndex = 0 then (satelliteImagesLen selectedEvent : Int) - 1
          else s.currentSatelliteIndex - 1,
        isZoomed := false, imageLoaded := false }
  | .graph =>
    if graphImagesLen selectedEvent = 0 then s
    else
      { s with
        currentGraphIndex :=
          if s.currentGraphIndex = 0 then (graphImagesLen selectedEvent : Int) - 1
          else s.currentGraphIndex - 1,
        isZoomed := false, imageLoaded := false }

/-- The `goToNext` handler of `ImageView`. -/
def goToNext (selectedEvent : Option SuperbloomEventData) (s : ImageViewState) :
    ImageViewState :=
  match s.viewMode with
  | .gallery =>
    if imagesLen selectedEvent = 0 then s
    else
      { s with
        currentImageIndex :=
          if s.currentImageIndex = (imagesLen selectedEvent : Int) - 1 then 0
          else s.currentImageIndex + 1,
        isZoomed := false, imageLoaded := false }
  | .satellite =>
    if satelliteImagesLen selectedEvent = 0 then s
    else
      { s with
        currentSatelliteIndex :=
          if s.currentSatelliteIndex = (satelliteImagesLen selectedEvent : Int) - 1 then 0
          else s.currentSatelliteIndex + 1,
        isZoomed := false, imageLoaded := false }
  | .graph =>
    if graphImagesLen selectedEvent = 0 then s
    else
      { s with
        currentGraphIndex :=
          if s.currentGraphIndex = (graphImagesLen selectedEvent : Int) - 1 then 0
          else s.currentGraphIndex + 1,
        isZoomed := false, imageLoaded := false }

/-- The tab-button click handler of `ImageView` for mode `m`:
`onClick` runs `setViewMode(m)` and nothing else. -/
def setViewMode (m : ViewMode) (s : ImageViewState) : ImageViewState :=
  { s with viewMode := m }

/-- One navigation call of claim C2: `goToNext`, `goToPrevious`, or
`goToImage i`. -/
inductive NavOp where
  | next
  | prev
  | goTo (i : Int)
  deriving DecidableEq, Repr

/-- Apply one navigation call to the viewer state. -/
def applyNav (selectedEvent : Option SuperbloomEventData) (s : ImageViewState) :
    NavOp → ImageViewState
  | .next => goToNext selectedEvent s
  | .prev => goToPrevious selectedEvent s
  | .goTo i => goToImage i s

/-- Apply a sequence of navigation calls, left to right. -/
def applyNavs (selectedEvent : Option SuperbloomEventData) :
    ImageViewState → List NavOp → ImageViewState
  | s, [] => s
  | s, op :: ops => applyNavs selectedEvent (applyNav selectedEvent s op) ops

/-- Is the argument of a `goToImage` call within the bounds of the given
mode's collection?  `goToNext` and `goToPrevious` take no argument. -/
def navInRange (selectedEvent : Option SuperbloomEventData) (m : ViewMode) :
    NavOp → Bool
  | .goTo i => decide (0 ≤ i) && decide (i < (activeLen selectedEvent m : Int))
  | .next => true
  | .prev => true

lemma goToImage_viewMode (i : Int) (s : ImageViewState) :
    (goToImage i s).viewMode = s.viewMode := by
  obtain ⟨vm, i1, i2, i3, z, l⟩ := s
  cases vm <;> rfl

lemma goToPrevious_viewMode (ev : Option SuperbloomEventData) (s : ImageViewState) :
    (goToPrevious ev s).viewMode = s.viewMode := by
  obtain ⟨vm, i1, i2, i3, z, l⟩ := s
  cases vm <;> (unfold goToPrevious; dsimp only; split <;> rfl)

lemma goToNext_viewMode (ev : Option SuperbloomEventData) (s : ImageViewState) :
    (goToNext ev s).viewMode = s.viewMode := by
  obtain ⟨vm, i1, i2, i3, z, l⟩ := s
  cases vm <;> (unfold goToNext; dsimp only; split <;> rfl)

lemma applyNav_viewMode (ev : Option SuperbloomEventData) (s : ImageViewState)
    (op : NavOp) : (applyNav ev s op).viewMode = s.viewMode := by
  cases op with
  | next => exact goToNext_viewMode ev s
  | prev => exact goToPrevious_viewMode ev s
  | goTo i => exact goToImage_viewMode i s

lemma goToImage_activeIndex (i : Int) (s : ImageViewState) :
    activeIndex (goToImage i s) = i := by
  obtain ⟨vm, i1, i2, i3, z, l⟩ := s
  cases vm <;> rfl

lemma applyNav_activeIndex_bound (ev : Option SuperbloomEventData)
    (s : ImageViewState) (op : NavOp)
    (hop : navInRange ev s.viewMode op = true)
    (hlo : 0 ≤ activeIndex s)
    (hhi : activeIndex s < (activeLen ev s.viewMode : Int)) :
    0 ≤ activeIndex (applyNav ev s op)
    ∧ activeIndex (applyNav ev s op) < (activeLen ev s.viewMode : Int) := by
  obtain ⟨vm, i1, i2, i3, z, l⟩ := s
  cases op with
  | goTo i =>
    cases vm <;> simp_all [applyNav, goToImage, activeIndex, navInRange, activeLen]
  | prev =>
    cases vm <;>
      simp_all [applyNav, goToPrevious, activeIndex, activeLen] <;>
      split_ifs <;> simp_all <;> omega
  | next =>
    cases vm <;>
      simp_all [applyNav, goToNext, activeIndex, activeLen] <;>
      split_ifs <;> simp_all <;> omega

lemma applyNavs_activeIndex_bound (ev : Option SuperbloomEventData)
    (ops : List NavOp) :
    ∀ s : ImageViewState,
      (∀ op ∈ ops, navInRange ev s.viewMode op = true) →
      0 ≤ activeIndex s →
      activeIndex s < (activeLen ev s.viewMode : Int) →
      (applyNavs ev s ops).viewMode = s.viewMode
      ∧ 0 ≤ activeIndex (applyNavs ev s ops)
      ∧ activeIndex (applyNavs ev s ops) < (activeLen ev s.viewMode : Int) := by
  induction ops with
  | nil =>
    intro s hops hlo hhi
    exact ⟨rfl, hlo, hhi⟩
  | cons op ops ih =>
    intro s hops hlo hhi
    simp only [applyNavs]
    have hvm := applyNav_viewMode ev s op
    have hstep := applyNav_activeIndex_bound ev s op (hops op (by simp)) hlo hhi
    have hrest := ih (applyNav ev s op)
      (by intro o ho; rw [hvm]; exact hops o (by simp [ho]))
      hstep.1
      (by rw [hvm]; exact hstep.2)
    refine ⟨hrest.1.trans hvm, hrest.2.1, ?_⟩
    have h2 := hrest.2.2
    rw [hvm] at h2
    exact h2

/-- A focused event whose gallery has exactly three images. -/
def threeImageEvent : SuperbloomEventData :=
  { id := 2, title := "Gallery".toList, location := "Here".toList,
    tags := [], peakTimeInterval := ⟨0, 1⟩,
    images := some ["a".toList, "b".toList, "c".toList] }

/-- The viewer state in gallery mode at index 0, not zoomed, not loaded. -/
def galleryStateAtZero : ImageViewState :=
  { viewMode := .gallery, currentImageIndex := 0, currentSatelliteIndex := 0,
    currentGraphIndex := 0, isZoomed := false, imageLoaded := false }

/-- Counterexample to claim C2: `goToImage` has no bounds check — calling it
with 5 on a gallery of length 3 is not a no-op, it sets the index to the
out-of-range value 5. -/
theorem C2_counterexample :
    imagesLen (some threeImageEvent) = 3
    ∧ ¬ (5 : Int) < (imagesLen (some threeImageEvent) : Int)
    ∧ (goToImage 5 galleryStateAtZero).currentImageIndex = 5
    ∧ galleryStateAtZero.currentImageIndex = 0 := by
  decide

/-- Claim C2 (amended): `goToImage i` on the active mode sets that mode's
index to `i` unconditionally — the code performs no bounds check, so an
out-of-range call does change the index.  The index invariant therefore holds
for bounded calls only: after any sequence of `goToNext`, `goToPrevious` and
in-range `goToImage` calls starting from a state whose active index is within
`[0, length)`, the active mode's index remains within `[0, length)`. -/
theorem C2_amended_goToImage_unchecked_and_invariant
    (ev : Option SuperbloomEventData) (s : ImageViewState) (ops : List NavOp)
    (hops : ∀ op ∈ ops, navInRange ev s.viewMode op = true)
    (hlo : 0 ≤ activeIndex s)
    (hhi : activeIndex s < (activeLen ev s.viewMode : Int)) :
    (∀ i : Int, activeIndex (goToImage i s) = i)
    ∧ 0 ≤ activeIndex (applyNavs ev s ops)
    ∧ activeIndex (applyNavs ev s ops) < (activeLen ev s.viewMode : Int) := by
  have h := applyNavs_activeIndex_bound ev ops s hops hlo hhi
  exact ⟨fun i => goToImage_activeIndex i s, h.2.1, h.2.2⟩

/-- Concrete instance of `C2_amended_goToImage_unchecked_and_invariant`. -/
theorem C2_amended_goToImage_unchecked_and_invariant_witness :
    0 ≤ activeIndex (applyNavs (some threeImageEvent) galleryStateAtZero
        [NavOp.prev, NavOp.next, NavOp.goTo 2])
    ∧ activeIndex (applyNavs (some threeImageEvent) galleryStateAtZero
        [NavOp.prev, NavOp.next, NavOp.goTo 2])
      < (activeLen (some threeImageEvent) galleryStateAtZero.viewMode : Int) :=
  ⟨(C2_amended_goToImage_unchecked_and_invariant (some threeImageEvent)
      galleryStateAtZero [NavOp.prev, NavOp.next, NavOp.goTo 2]
      (by decide) (by decide) (by decide)).2.1,
   (C2_amended_goToImage_unchecked_and_invariant (some threeImageEvent)
      galleryStateAtZero [NavOp.prev, NavOp.next, NavOp.goTo 2]
      (by decide) (by decide) (by decide)).2.2⟩

/-- A focused event whose gallery has exactly one image. -/
def oneImageEvent : SuperbloomEventData :=
  { id := 3, title := "Single".toList, location := "There".toList,
    tags := [], peakTimeInterval := ⟨0, 1⟩, images := some ["a".toList] }

/-- A zoomed gallery state at index 0 whose image has loaded. -/
def zoomedGalleryState : ImageViewState :=
  { viewMode := .gallery, currentImageIndex := 0, currentSatelliteIndex := 0,
    currentGraphIndex := 0, isZoomed := true, imageLoaded := true }

/-- Counterexample to claim C5: on a gallery of length 1, `goToNext` is not a
no-op — the index stays 0, but the state changes: the zoom flag is reset. -/
theorem C5_counterexample :
    imagesLen (some oneImageEvent) = 1
    ∧ goToNext (some oneImageEvent) zoomedGalleryState ≠ zoomedGalleryState
    ∧ (goToNext (some oneImageEvent) zoomedGalleryState).currentImageIndex = 0
    ∧ (goToNext (some oneImageEvent) zoomedGalleryState).isZoomed = false
    ∧ zoomedGalleryState.isZoomed = true := by
  decide

/-- Claim C5 (amended): whenever the active collection is non-empty,
`goToPrevious` maps index 0 to length − 1 and otherwise steps down by one,
and `goToNext` maps index length − 1 to 0 and otherwise steps up by one (for
length ≥ 2 exactly the wrap-around the claim states).  With 0 elements both
calls leave the state entirely unchanged; with 1 element and index 0 the
index is unchanged but the state is not a no-op: the zoom and load flags are
reset to false. -/
theorem C5_amended_wrap_and_small_collections
    (ev : Option SuperbloomEventData) (s : ImageViewState) :
    (activeLen ev s.viewMode ≠ 0 →
      activeIndex (goToPrevious ev s)
          = (if activeIndex s = 0 then (activeLen ev s.viewMode : Int) - 1
             else activeIndex s - 1)
      ∧ activeIndex (goToNext ev s)
          = (if activeIndex s = (activeLen ev s.viewMode : Int) - 1 then 0
             else activeIndex s + 1))
    ∧ (activeLen ev s.viewMode = 0 →
      goToPrevious ev s = s ∧ goToNext ev s = s)
    ∧ (activeLen ev s.viewMode = 1 → activeIndex s = 0 →
      goToPrevious ev s = { s with isZoomed := false, imageLoaded := false }
      ∧ goToNext ev s = { s with isZoomed := false, imageLoaded := false }) := by
  obtain ⟨vm, i1, i2, i3, z, l⟩ := s
  refine ⟨fun hne => ⟨?_, ?_⟩, fun hz => ⟨?_, ?_⟩, fun h1 h0 => ⟨?_, ?_⟩⟩ <;>
    cases vm <;>
    simp_all [goToPrevious, goToNext, activeIndex, activeLen]

/-- Concrete instance of `C5_amended_wrap_and_small_collections`: a gallery
of length 3 at index 0 wraps to index 2 on `goToPrevious`. -/
theorem C5_amended_wrap_and_small_collections_witness :
    activeIndex (goToPrevious (some threeImageEvent) galleryStateAtZero) = 2 := by
  have h := (C5_amended_wrap_and_small_collections (some threeImageEvent)
      galleryStateAtZero).1 (by decide)
  rw [h.1]
  decide

/-- Counterexample to claim C6: selecting a mode does not reset the zoom and
load flags — from a zoomed state whose image has loaded, after `setViewMode`
both flags still hold. -/
theorem C6_counterexample :
    (setViewMode ViewMode.satellite zoomedGalleryState).viewMode = ViewMode.satellite
    ∧ (setViewMode ViewMode.satellite zoomedGalleryState).isZoomed = true
    ∧ (setViewMode ViewMode.satellite zoomedGalleryState).imageLoaded = true := by
  decide

/-- Claim C6 (amended): `selectMode m` — the tab click running
`setViewMode(m)` — sets the active mode to `m` and leaves everything else
unchanged: the three indices keep their values, and, contrary to the claim,
the zoom and load flags are not reset but also keep their values. -/
theorem C6_amended_setViewMode_only_mode (m : ViewMode) (s : ImageViewState) :
    (setViewMode m s).viewMode = m
    ∧ (setViewMode m s).currentImageIndex = s.currentImageIndex
    ∧ (setViewMode m s).currentSatelliteIndex = s.currentSatelliteIndex
    ∧ (setViewMode m s).currentGraphIndex = s.currentGraphIndex
    ∧ (setViewMode m s).isZoomed = s.isZoomed
    ∧ (setViewMode m s).imageLoaded = s.imageLoaded :=
  ⟨rfl, rfl, rfl, rfl, rfl, rfl⟩

end BloomWatch
